import Mathlib

/-!
Shallow embedding of the trivia round runner client (game page script).

The script is a single-threaded, event-driven program.  We embed its
global mutable variables as one state record `St` and each handler as a
pure function on `St`.  An async handler that suspends at an `await` is
split at the suspension point: `handleGuess` becomes `handleGuessStart`
(the synchronous prefix up to the guess POST) and `handleGuessResponse`
(the continuation that runs when the response settles); the in-flight
request is recorded in the `pendingGuess` field, which mirrors the
pending promise (the source has no such variable, and accordingly no
function here ever consults it as a guard — only the arrival of the
response consumes it).  Backend and user interactions are supplied as
oracle arguments: a `none` response models a rejected fetch (`fetchJSON`
throwing), a `none` prompt input models the user cancelling the dialog.

DOM-only effects (class toggling, element construction) are dropped;
observable renderings that the claims mention are kept as fields
(`status`, `statusNegative`, `nextDisabled`) or derived functions
(`displayedAttempts` for `renderAttempts`).  Counters `guessCalls`,
`submitCalls` and the log `promptDefaults` record each guess POST,
high-score POST and `prompt()` call so that "calls the backend" /
"solicits an identifier" are stated directly.
-/

/-- A leaderboard row as returned by the high-scores API. -/
structure HighScoreEntry where
  initials : String
  score : Int
deriving Repr, DecidableEq

/-- An option button of a question: `{ id, label }`. -/
structure OptionItem where
  id : String
  label : String
deriving Repr, DecidableEq

/-- The body of a successful guess response: `{ correct, answer_id }`. -/
structure GuessResult where
  correct : Bool
  answer_id : String
deriving Repr, DecidableEq

/-- One element pushed onto `attempts` on a guess resolution. -/
structure AttemptRecord where
  correct : Bool
  question_type : String
  label : String
deriving Repr, DecidableEq

/-- The body of a successful question response (fields the logic uses). -/
structure QuestionData where
  token : Nat
  question_type : String
  options : List OptionItem
deriving Repr, DecidableEq

/-- The script's global mutable state, plus instrumentation fields
(`pendingGuess` for the suspended guess continuation, `guessCalls`,
`submitCalls`, `promptDefaults` counting the outward calls). -/
structure St where
  currentToken : Option Nat
  locked : Bool
  streak : Int
  timerArmed : Bool
  timeLeft : Int
  highScores : List HighScoreEntry
  highScoresByDifficulty : List (Nat × List HighScoreEntry)
  currentGame : String
  currentDifficulty : Nat
  currentQuestionType : String
  currentOptions : List OptionItem
  attempts : List AttemptRecord
  status : String
  statusPositive : Bool
  statusNegative : Bool
  nextDisabled : Bool
  pendingGuess : Option (Nat × String × String)
  guessCalls : Nat
  submitCalls : Nat
  promptDefaults : List String
deriving Repr, DecidableEq

/-- TIMER_LIMIT = 30. -/
def TIMER_LIMIT : Int := 30

/-- DIFFICULTIES = [2, 3, 4, 5, 6]. -/
def DIFFICULTIES : List Nat := [2, 3, 4, 5, 6]

/-- The initial values of the globals at script load (before the startup
calls at the bottom of the file run). -/
def initialSt : St :=
  { currentToken := none
    locked := false
    streak := 0
    timerArmed := false
    timeLeft := TIMER_LIMIT
    highScores := []
    highScoresByDifficulty := []
    currentGame := "who-is"
    currentDifficulty := 4
    currentQuestionType := "who-is"
    currentOptions := []
    attempts := []
    status := ""
    statusPositive := false
    statusNegative := false
    nextDisabled := false
    pendingGuess := none
    guessCalls := 0
    submitCalls := 0
    promptDefaults := [] }

/-- renderStatus(text, positive, negative). -/
def renderStatus (s : St) (text : String) (positive negative : Bool) : St :=
  { s with status := text, statusPositive := positive, statusNegative := negative }

/-- clearTimer(): clearInterval + null out the id. -/
def clearTimer (s : St) : St :=
  { s with timerArmed := false }

/-- JS object assignment `m[k] = v` on the difficulty-indexed cache. -/
def setAssoc (m : List (Nat × List HighScoreEntry)) (k : Nat)
    (v : List HighScoreEntry) : List (Nat × List HighScoreEntry) :=
  match m with
  | [] => [(k, v)]
  | (k0, v0) :: rest =>
      if k0 = k then (k, v) :: rest else (k0, v0) :: setAssoc rest k v

/-- JS read `m[k]` on the difficulty-indexed cache (`none` = undefined). -/
def getAssoc (m : List (Nat × List HighScoreEntry)) (k : Nat) :
    Option (List HighScoreEntry) :=
  match m with
  | [] => none
  | (k0, v0) :: rest => if k0 = k then some v0 else getAssoc rest k

/-- fetchHighScores(): clears `highScores` and `highScoresByDifficulty`,
fires one request per difficulty, stores each successful response under
its difficulty, and — only when every request succeeded (`Promise.all`)
— repoints `highScores` at the current difficulty's list; any failure
lands in the catch, which renders a negative status.  `resp d = none`
models difficulty `d`'s request rejecting. -/
def fetchHighScores (s : St) (resp : Nat → Option (List HighScoreEntry)) : St :=
  let cleared := { s with highScores := [], highScoresByDifficulty := [] }
  let filled :=
    { cleared with
      highScoresByDifficulty :=
        DIFFICULTIES.foldl
          (fun m d =>
            match resp d with
            | some l => setAssoc m d l
            | none => m)
          [] }
  if DIFFICULTIES.all (fun d => (resp d).isSome) then
    { filled with
      highScores :=
        (getAssoc filled.highScoresByDifficulty filled.currentDifficulty).getD [] }
  else
    renderStatus filled "Gat ekki sótt lengstu röð." false true

/-- submitHighScore(score, initials): POSTs, then on success replaces the
cached leaderboard for the current difficulty (and `highScores`) with the
authoritative list from the response.  `resp = none` models the POST
rejecting: the exception propagates (the returned Bool is false) before
any cache assignment runs. -/
def submitHighScore (s : St) (_score : Int) (_initials : String)
    (resp : Option (List HighScoreEntry)) : St × Bool :=
  let s1 := { s with submitCalls := s.submitCalls + 1 }
  match resp with
  | none => (s1, false)
  | some updated =>
      ({ s1 with
          highScoresByDifficulty :=
            setAssoc s1.highScoresByDifficulty s1.currentDifficulty updated,
          highScores := updated }, true)

/-- JS `String.prototype.trim`: strip leading and trailing whitespace
(stated on the string's character list). -/
def trimChars (l : List Char) : List Char :=
  ((l.dropWhile Char.isWhitespace).reverse.dropWhile Char.isWhitespace).reverse

/-- requestInitials(defaultValue): prompt the user; null (cancel) gives
null, otherwise trim, take the first 3 code points
(`Array.from(input.trim()).slice(0, 3).join("")`), and treat the empty
result as null.  `input = none` models the user cancelling. -/
def requestInitials (_defaultValue : String) (input : Option String) :
    Option String :=
  match input with
  | none => none
  | some i =>
      let cleaned : String := String.mk ((trimChars i.toList).take 3)
      if cleaned = "" then none else some cleaned

/-- The default offered to the prompt: `highScores[0]?.initials || "---"`
(an empty-string initials is falsy in JS, hence also replaced). -/
def topInitialsOrDashes (l : List HighScoreEntry) : String :=
  match l.head? with
  | some e => if e.initials = "" then "---" else e.initials
  | none => "---"

/-- The `minScore` computed by maybeSubmitHighScore: 0 while fewer than
10 entries are cached, else the last (lowest) cached entry's score. -/
def admissionThreshold (l : List HighScoreEntry) : Int :=
  if l.length < 10 then 0
  else
    match l.getLast? with
    | some e => e.score
    | none => 0

/-- maybeSubmitHighScore(runScore): admission guard (score positive and
not below the last cached entry's score once 10 entries exist), then the
initials prompt (its default recorded in `promptDefaults`), then the
POST; a rejected POST is caught and rendered as a negative status. -/
def maybeSubmitHighScore (s : St) (runScore : Int) (promptInput : Option String)
    (submitResp : Option (List HighScoreEntry)) : St :=
  if runScore ≤ 0 then s
  else
    let minScore : Int := admissionThreshold s.highScores
    if runScore < minScore then s
    else
      let dflt := topInitialsOrDashes s.highScores
      let s1 := { s with promptDefaults := s.promptDefaults ++ [dflt] }
      match requestInitials dflt promptInput with
      | none => s1
      | some initials =>
          match submitHighScore s1 runScore initials submitResp with
          | (s2, true) => renderStatus s2 "Lengsta röð vistuð!" true false
          | (s2, false) => renderStatus s2 "Tókst ekki að vista met." false true

/-- handleTimeout(): no-op once locked; otherwise lock, capture the
streak, zero it, render, enable the next button, and hand the captured
score to maybeSubmitHighScore.  (disableOptions is DOM-only.) -/
def handleTimeout (s : St) (promptInput : Option String)
    (submitResp : Option (List HighScoreEntry)) : St :=
  if s.locked then s
  else
    let s1 := { s with locked := true }
    let finishedRun := s1.streak
    let s2 := { s1 with streak := 0 }
    let s3 := renderStatus s2 "Tíminn rann út. Reyndu aftur." false true
    let s4 := { s3 with nextDisabled := false }
    maybeSubmitHighScore s4 finishedRun promptInput submitResp

/-- The synchronous prefix of handleGuess(button, guessId): the entry
guard `locked || !currentToken`, then lock, clearTimer, and fire the POST
carrying the held token (recorded in `pendingGuess`, together with the
clicked button's label for the continuation). -/
def handleGuessStart (s : St) (guessId : String) (buttonLabel : String) : St :=
  match s.currentToken with
  | none => s
  | some tok =>
      if s.locked then s
      else
        { s with
            locked := true
            timerArmed := false
            pendingGuess := some (tok, guessId, buttonLabel)
            guessCalls := s.guessCalls + 1 }

/-- JS truthiness chain `correctLabel || button.textContent || "Óþekkt"`. -/
def attemptLabel (correctLabel : Option String) (buttonLabel : String) : String :=
  match correctLabel with
  | some l => if l = "" then (if buttonLabel = "" then "Óþekkt" else buttonLabel) else l
  | none => if buttonLabel = "" then "Óþekkt" else buttonLabel

/-- The continuation of handleGuess after `await fetchJSON` settles.  It
consumes the pending request and — faithfully to the source — re-checks
nothing: on a successful response it applies the streak update, renders,
possibly submits a finished run, and pushes the attempt record; on a
rejected fetch (`result = none`) the catch renders an error; either way
the finally-block enables the next button. -/
def handleGuessResponse (s : St) (result : Option GuessResult)
    (promptInput : Option String) (submitResp : Option (List HighScoreEntry)) : St :=
  match s.pendingGuess with
  | none => s
  | some (_tok, _guessId, buttonLabel) =>
      let s0 := { s with pendingGuess := none }
      match result with
      | none =>
          let s1 := renderStatus s0 "Villa kom upp við að senda ágiskun." false true
          { s1 with nextDisabled := false }
      | some res =>
          let s1 :=
            if res.correct then
              let sa := { s0 with streak := s0.streak + 1 }
              renderStatus sa "Rétt svar! Vel gert." true false
            else
              let finishedRun := s0.streak
              let sa := { s0 with streak := 0 }
              let sb := renderStatus sa "Ekki alveg. Byrjað upp á nýtt." false true
              maybeSubmitHighScore sb finishedRun promptInput submitResp
          let correctLabel :=
            (s1.currentOptions.find? (fun o => o.id = res.answer_id)).map
              (fun o => o.label)
          let s2 :=
            { s1 with
                attempts :=
                  s1.attempts ++
                    [AttemptRecord.mk res.correct s1.currentQuestionType
                      (attemptLabel correctLabel buttonLabel)] }
          { s2 with nextDisabled := false }

/-- resetState(): unlock, drop the token, reset the question-type and
options, clearTimer, reset the clock, render the idle status, disable the
next button.  Note it does not touch the pending guess promise. -/
def resetState (s : St) : St :=
  let s1 :=
    { s with
        locked := false
        currentToken := none
        currentQuestionType := s.currentGame
        currentOptions := []
        timerArmed := false
        timeLeft := TIMER_LIMIT }
  let s2 := renderStatus s1 "Veldu svar til að byrja." false false
  { s2 with nextDisabled := true }

/-- startTimer(): clearTimer, reset the clock, arm the interval. -/
def startTimer (s : St) : St :=
  let s1 := clearTimer s
  { s1 with timeLeft := TIMER_LIMIT, timerArmed := true }

/-- loadQuestion(): resetState, then fetch a question; on success store
its token, question type and options and start the timer; on failure
render a retryable error (state stays reset/idle).  `resp = none` models
the question request rejecting. -/
def loadQuestion (s : St) (resp : Option QuestionData) : St :=
  let s1 := resetState s
  match resp with
  | none => renderStatus s1 "Gat ekki sótt gögn." false true
  | some d =>
      let s2 :=
        { s1 with
            currentToken := some d.token
            currentQuestionType := d.question_type
            currentOptions := d.options }
      startTimer s2

/-- setActiveGame(game): switch the mode, zero the streak, refresh the
leaderboards, load a fresh question. -/
def setActiveGame (s : St) (game : String)
    (fetchResp : Nat → Option (List HighScoreEntry))
    (qResp : Option QuestionData) : St :=
  let s1 := { s with currentGame := game, streak := 0 }
  let s2 := fetchHighScores s1 fetchResp
  loadQuestion s2 qResp

/-- onDifficultyChange(value): switch the difficulty, zero the streak,
refresh the leaderboards, load a fresh question. -/
def onDifficultyChange (s : St) (value : Nat)
    (fetchResp : Nat → Option (List HighScoreEntry))
    (qResp : Option QuestionData) : St :=
  let s1 := { s with currentDifficulty := value, streak := 0 }
  let s2 := fetchHighScores s1 fetchResp
  loadQuestion s2 qResp

/-- One interval tick: decrement, and on reaching zero clear the timer
and run handleTimeout.  A tick only fires while the interval is armed. -/
def timerTick (s : St) (promptInput : Option String)
    (submitResp : Option (List HighScoreEntry)) : St :=
  if s.timerArmed then
    let s1 := { s with timeLeft := s.timeLeft - 1 }
    if s1.timeLeft ≤ 0 then
      let s2 := clearTimer s1
      let s3 := { s2 with timeLeft := 0 }
      handleTimeout s3 promptInput submitResp
    else s1
  else s

/-- The serialized events of the single event loop, each carrying the
oracle data its handler consumes. -/
inductive Event where
  | guessClick (guessId buttonLabel : String)
  | guessResponse (result : Option GuessResult) (promptInput : Option String)
      (submitResp : Option (List HighScoreEntry))
  | tick (promptInput : Option String) (submitResp : Option (List HighScoreEntry))
  | nextRoundClick (qResp : Option QuestionData)
  | gameLinkClick (game : String) (fetchResp : Nat → Option (List HighScoreEntry))
      (qResp : Option QuestionData)
  | difficultyInput (value : Nat) (fetchResp : Nat → Option (List HighScoreEntry))
      (qResp : Option QuestionData)

/-- Dispatch one event.  The next-round click is gated by the button's
disabled property; everything else guards inside its handler. -/
def step (s : St) (e : Event) : St :=
  match e with
  | .guessClick g lbl => handleGuessStart s g lbl
  | .guessResponse r p b => handleGuessResponse s r p b
  | .tick p b => timerTick s p b
  | .nextRoundClick q => if s.nextDisabled then s else loadQuestion s q
  | .gameLinkClick g f q => setActiveGame s g f q
  | .difficultyInput v f q => onDifficultyChange s v f q

/-- Run a list of events in order. -/
def run (s : St) (es : List Event) : St :=
  es.foldl step s

/-- renderAttempts' displayed list: `attempts.slice(-15).reverse()` —
the most recent 15 attempts, newest first. -/
def displayedAttempts (s : St) : List AttemptRecord :=
  ((s.attempts.drop (s.attempts.length - 15)).reverse)

/-! ## Helper lemmas -/

/-- maybeSubmitHighScore only touches the leaderboard caches, the status
fields, `submitCalls` and `promptDefaults`; every round-lifecycle field
is preserved on all of its paths. -/
theorem maybeSubmit_preserves (s : St) (r : Int) (p : Option String)
    (b : Option (List HighScoreEntry)) :
    (maybeSubmitHighScore s r p b).streak = s.streak ∧
    (maybeSubmitHighScore s r p b).locked = s.locked ∧
    (maybeSubmitHighScore s r p b).guessCalls = s.guessCalls ∧
    (maybeSubmitHighScore s r p b).attempts = s.attempts ∧
    (maybeSubmitHighScore s r p b).timerArmed = s.timerArmed ∧
    (maybeSubmitHighScore s r p b).currentToken = s.currentToken ∧
    (maybeSubmitHighScore s r p b).pendingGuess = s.pendingGuess ∧
    (maybeSubmitHighScore s r p b).nextDisabled = s.nextDisabled ∧
    (maybeSubmitHighScore s r p b).timeLeft = s.timeLeft ∧
    (maybeSubmitHighScore s r p b).currentQuestionType = s.currentQuestionType ∧
    (maybeSubmitHighScore s r p b).currentOptions = s.currentOptions ∧
    (maybeSubmitHighScore s r p b).currentGame = s.currentGame ∧
    (maybeSubmitHighScore s r p b).currentDifficulty = s.currentDifficulty := by
  unfold maybeSubmitHighScore submitHighScore renderStatus
  cases b <;> repeat' split <;> simp_all

/-- fetchHighScores only touches the caches and the status fields. -/
theorem fetchHighScores_preserves (s : St) (resp : Nat → Option (List HighScoreEntry)) :
    (fetchHighScores s resp).streak = s.streak ∧
    (fetchHighScores s resp).locked = s.locked ∧
    (fetchHighScores s resp).currentToken = s.currentToken ∧
    (fetchHighScores s resp).pendingGuess = s.pendingGuess ∧
    (fetchHighScores s resp).guessCalls = s.guessCalls ∧
    (fetchHighScores s resp).attempts = s.attempts ∧
    (fetchHighScores s resp).currentDifficulty = s.currentDifficulty := by
  unfold fetchHighScores renderStatus
  repeat' split <;> simp_all

/-- loadQuestion never touches the streak, the session log, the pending
guess promise, or the call counters. -/
theorem loadQuestion_preserves (s : St) (resp : Option QuestionData) :
    (loadQuestion s resp).streak = s.streak ∧
    (loadQuestion s resp).pendingGuess = s.pendingGuess ∧
    (loadQuestion s resp).guessCalls = s.guessCalls ∧
    (loadQuestion s resp).attempts = s.attempts := by
  unfold loadQuestion resetState startTimer clearTimer renderStatus
  cases resp <;> simp_all

/-! ## C3: admission threshold -/

/-- C3: maybeSubmitHighScore is a no-op when the finished-run score is 0,
and a no-op when 10 entries are cached and the score is strictly below
the 10th (last, lowest) entry's score; with fewer than 10 entries the
threshold is 0 so any positive score triggers solicitation, and a
positive score equal to the 10th entry's score (a tie) still triggers
solicitation — the comparison is strict less-than. -/
theorem maybeSubmit_admission (s : St) (r : Int) (p : Option String)
    (b : Option (List HighScoreEntry)) (e : HighScoreEntry) :
    (r = 0 → maybeSubmitHighScore s r p b = s) ∧
    (s.highScores.length = 10 → s.highScores.getLast? = some e →
      r < e.score → maybeSubmitHighScore s r p b = s) ∧
    (s.highScores.length < 10 → 1 ≤ r →
      (maybeSubmitHighScore s r p b).promptDefaults =
        s.promptDefaults ++ [topInitialsOrDashes s.highScores]) ∧
    (s.highScores.length = 10 → s.highScores.getLast? = some e →
      r = e.score → 1 ≤ r →
      (maybeSubmitHighScore s r p b).promptDefaults =
        s.promptDefaults ++ [topInitialsOrDashes s.highScores]) := by
  refine ⟨?_, ?_, ?_, ?_⟩
  · intro h
    simp [maybeSubmitHighScore, h]
  · intro h10 hlast hlt
    simp [maybeSubmitHighScore, admissionThreshold, h10, hlast, hlt]
  · intro hlen hr
    have h0 : ¬ r ≤ 0 := by omega
    have hth : admissionThreshold s.highScores = 0 := by
      simp [admissionThreshold, hlen]
    have hnl : ¬ r < admissionThreshold s.highScores := by rw [hth]; omega
    simp only [maybeSubmitHighScore, h0, if_false, hnl]
    cases hri : requestInitials (topInitialsOrDashes s.highScores) p <;>
      cases b <;> simp [hri, submitHighScore, renderStatus]
  · intro h10 hlast heq hr
    have h0 : ¬ r ≤ 0 := by omega
    have hth : admissionThreshold s.highScores = e.score := by
      simp [admissionThreshold, h10, hlast]
    have hnl : ¬ r < admissionThreshold s.highScores := by rw [hth, heq]; omega
    simp only [maybeSubmitHighScore, h0, if_false, hnl]
    cases hri : requestInitials (topInitialsOrDashes s.highScores) p <;>
      cases b <;> simp [hri, submitHighScore, renderStatus]

/-- C3 witness: concrete instances of each clause of the admission
theorem. -/
theorem maybeSubmit_admission_witness :
    maybeSubmitHighScore initialSt 0 none none = initialSt :=
  (maybeSubmit_admission initialSt 0 none none ⟨"---", 0⟩).1 rfl

/-! ## C5: submission failure leaves the cache untouched -/

/-- C5: when the high-score POST rejects (`submitResp = none`), the
cached leaderboards are exactly what they were before the attempt, the
streak and lock are untouched, and — whenever the attempt actually
reached the POST — only a negative (non-fatal) status message is
rendered. -/
theorem submitFailure_leaves_cache (s : St) (r : Int) (p : Option String) :
    (maybeSubmitHighScore s r p none).highScores = s.highScores ∧
    (maybeSubmitHighScore s r p none).highScoresByDifficulty =
      s.highScoresByDifficulty ∧
    (maybeSubmitHighScore s r p none).streak = s.streak ∧
    (maybeSubmitHighScore s r p none).locked = s.locked ∧
    (∀ c, requestInitials (topInitialsOrDashes s.highScores) p = some c →
      0 < r → ¬ r < admissionThreshold s.highScores →
      (maybeSubmitHighScore s r p none).statusNegative = true ∧
      (maybeSubmitHighScore s r p none).status = "Tókst ekki að vista met." ∧
      (maybeSubmitHighScore s r p none).submitCalls = s.submitCalls + 1) := by
  refine ⟨?_, ?_, ?_, ?_, ?_⟩
  · unfold maybeSubmitHighScore submitHighScore renderStatus
    repeat' split <;> simp_all
  · unfold maybeSubmitHighScore submitHighScore renderStatus
    repeat' split <;> simp_all
  · exact (maybeSubmit_preserves s r p none).1
  · exact (maybeSubmit_preserves s r p none).2.1
  · intro c hc hr hth
    have h0 : ¬ r ≤ 0 := by omega
    simp [maybeSubmitHighScore, h0, hth, hc, submitHighScore, renderStatus]

/-- C5 witness: a qualifying score of 3 on an empty leaderboard with a
provided identifier and a rejected POST. -/
theorem submitFailure_leaves_cache_witness :
    (maybeSubmitHighScore initialSt 3 (some "ABC") none).statusNegative = true ∧
    (maybeSubmitHighScore initialSt 3 (some "ABC") none).status =
      "Tókst ekki að vista met." ∧
    (maybeSubmitHighScore initialSt 3 (some "ABC") none).submitCalls =
      initialSt.submitCalls + 1 :=
  (submitFailure_leaves_cache initialSt 3 (some "ABC")).2.2.2.2 "ABC"
    (by decide) (by decide) (by decide)

/-! ## Projection helpers -/

/-- Streak component of maybeSubmit_preserves. -/
theorem maybeSubmit_streak (s : St) (r : Int) (p : Option String)
    (b : Option (List HighScoreEntry)) :
    (maybeSubmitHighScore s r p b).streak = s.streak :=
  (maybeSubmit_preserves s r p b).1

/-- Locked component of maybeSubmit_preserves. -/
theorem maybeSubmit_locked (s : St) (r : Int) (p : Option String)
    (b : Option (List HighScoreEntry)) :
    (maybeSubmitHighScore s r p b).locked = s.locked :=
  (maybeSubmit_preserves s r p b).2.1

/-- Guess-call component of maybeSubmit_preserves. -/
theorem maybeSubmit_guessCalls (s : St) (r : Int) (p : Option String)
    (b : Option (List HighScoreEntry)) :
    (maybeSubmitHighScore s r p b).guessCalls = s.guessCalls :=
  (maybeSubmit_preserves s r p b).2.2.1

/-- Session-log component of maybeSubmit_preserves. -/
theorem maybeSubmit_attempts (s : St) (r : Int) (p : Option String)
    (b : Option (List HighScoreEntry)) :
    (maybeSubmitHighScore s r p b).attempts = s.attempts :=
  (maybeSubmit_preserves s r p b).2.2.2.1

/-- Timer component of maybeSubmit_preserves. -/
theorem maybeSubmit_timerArmed (s : St) (r : Int) (p : Option String)
    (b : Option (List HighScoreEntry)) :
    (maybeSubmitHighScore s r p b).timerArmed = s.timerArmed :=
  (maybeSubmit_preserves s r p b).2.2.2.2.1

/-- Token component of maybeSubmit_preserves. -/
theorem maybeSubmit_token (s : St) (r : Int) (p : Option String)
    (b : Option (List HighScoreEntry)) :
    (maybeSubmitHighScore s r p b).currentToken = s.currentToken :=
  (maybeSubmit_preserves s r p b).2.2.2.2.2.1

/-- Pending-promise component of maybeSubmit_preserves. -/
theorem maybeSubmit_pending (s : St) (r : Int) (p : Option String)
    (b : Option (List HighScoreEntry)) :
    (maybeSubmitHighScore s r p b).pendingGuess = s.pendingGuess :=
  (maybeSubmit_preserves s r p b).2.2.2.2.2.2.1

/-- Question-type component of maybeSubmit_preserves. -/
theorem maybeSubmit_questionType (s : St) (r : Int) (p : Option String)
    (b : Option (List HighScoreEntry)) :
    (maybeSubmitHighScore s r p b).currentQuestionType = s.currentQuestionType :=
  (maybeSubmit_preserves s r p b).2.2.2.2.2.2.2.2.2.1

/-- Options component of maybeSubmit_preserves. -/
theorem maybeSubmit_options (s : St) (r : Int) (p : Option String)
    (b : Option (List HighScoreEntry)) :
    (maybeSubmitHighScore s r p b).currentOptions = s.currentOptions :=
  (maybeSubmit_preserves s r p b).2.2.2.2.2.2.2.2.2.2.1

/-! ## C8: identifier solicitation -/

/-- C8: when a qualifying run solicits an identifier, the default handed
to the prompt is the top entry's initials, or "---" when the leaderboard
is empty; accepted input is the trimmed input truncated to its first 3
characters (hence length at most 3); a cancelled prompt or input that is
empty after trimming yields no identifier, and then the submission is
aborted entirely (no POST, no cache change). -/
theorem solicitation_behavior (s : St) (r : Int) (p : Option String)
    (b : Option (List HighScoreEntry)) (d i : String) :
    (0 < r → ¬ r < admissionThreshold s.highScores →
      (maybeSubmitHighScore s r p b).promptDefaults =
        s.promptDefaults ++ [topInitialsOrDashes s.highScores]) ∧
    (s.highScores = [] → topInitialsOrDashes s.highScores = "---") ∧
    (∀ e, s.highScores.head? = some e → e.initials ≠ "" →
      topInitialsOrDashes s.highScores = e.initials) ∧
    (∀ c, requestInitials d (some i) = some c →
      c = String.mk ((trimChars i.toList).take 3) ∧ c.toList.length ≤ 3) ∧
    (requestInitials d none = none) ∧
    (trimChars i.toList = [] → requestInitials d (some i) = none) ∧
    (requestInitials (topInitialsOrDashes s.highScores) p = none →
      0 < r → ¬ r < admissionThreshold s.highScores →
      maybeSubmitHighScore s r p b =
        { s with promptDefaults :=
            s.promptDefaults ++ [topInitialsOrDashes s.highScores] }) := by
  refine ⟨?_, ?_, ?_, ?_, rfl, ?_, ?_⟩
  · intro hr hth
    have h0 : ¬ r ≤ 0 := by omega
    simp only [maybeSubmitHighScore, h0, if_false, hth]
    cases hri : requestInitials (topInitialsOrDashes s.highScores) p <;>
      cases b <;> simp [hri, submitHighScore, renderStatus]
  · intro h
    simp [topInitialsOrDashes, h]
  · intro e he hne
    simp [topInitialsOrDashes, he, hne]
  · intro c hc
    rw [requestInitials] at hc
    by_cases hcl : String.mk ((trimChars i.toList).take 3) = ""
    · rw [if_pos hcl] at hc
      cases hc
    · rw [if_neg hcl] at hc
      cases hc
      refine ⟨rfl, ?_⟩
      simp [List.length_take_le 3 (trimChars i.toList)]
  · intro h
    have h2 : trimChars i.data = [] := h
    simp [requestInitials, h2]
  · intro hn hr hth
    have h0 : ¬ r ≤ 0 := by omega
    simp [maybeSubmitHighScore, h0, hth, hn]

/-- C8 witness: a qualifying run on an empty leaderboard whose prompt is
cancelled: the default recorded is "---" and the submission is aborted
with only the prompt logged. -/
theorem solicitation_behavior_witness :
    maybeSubmitHighScore initialSt 2 none none =
      { initialSt with promptDefaults :=
          initialSt.promptDefaults ++ [topInitialsOrDashes initialSt.highScores] } :=
  (solicitation_behavior initialSt 2 none none "---" "x").2.2.2.2.2.2 rfl
    (by decide) (by decide)

/-! ## C6: timeout resolution -/

/-- C6: on timer expiry in an unresolved round, handleTimeout locks the
round without issuing any backend guess call, resets the streak to 0,
and forwards the streak value captured before the reset as the finished
run score to maybeSubmitHighScore. -/
theorem timeout_resolution (s : St) (p : Option String)
    (b : Option (List HighScoreEntry)) (h : s.locked = false) :
    (handleTimeout s p b).locked = true ∧
    (handleTimeout s p b).guessCalls = s.guessCalls ∧
    (handleTimeout s p b).streak = 0 ∧
    handleTimeout s p b =
      maybeSubmitHighScore
        { s with
            locked := true
            streak := 0
            status := "Tíminn rann út. Reyndu aftur."
            statusPositive := false
            statusNegative := true
            nextDisabled := false }
        s.streak p b := by
  have heq : handleTimeout s p b =
      maybeSubmitHighScore
        { s with
            locked := true
            streak := 0
            status := "Tíminn rann út. Reyndu aftur."
            statusPositive := false
            statusNegative := true
            nextDisabled := false }
        s.streak p b := by
    simp [handleTimeout, h, renderStatus]
  refine ⟨?_, ?_, ?_, heq⟩ <;> rw [heq]
  · rw [maybeSubmit_locked]
  · rw [maybeSubmit_guessCalls]
  · rw [maybeSubmit_streak]

/-- C6 witness: a timeout with streak 2 and no qualifying interaction. -/
theorem timeout_resolution_witness :
    (handleTimeout { initialSt with streak := 2 } none none).locked = true ∧
    (handleTimeout { initialSt with streak := 2 } none none).guessCalls =
      { initialSt with streak := 2 }.guessCalls ∧
    (handleTimeout { initialSt with streak := 2 } none none).streak = 0 :=
  ⟨(timeout_resolution { initialSt with streak := 2 } none none rfl).1,
   (timeout_resolution { initialSt with streak := 2 } none none rfl).2.1,
   (timeout_resolution { initialSt with streak := 2 } none none rfl).2.2.1⟩

/-! ## C7: guess backend failure -/

/-- C7: if the guess POST rejects after a guess was submitted, the round
is still locked (so the failed state absorbs any further guess click or
timer tick for that token), an error status is rendered, and the run is
unscored: the streak, the leaderboard caches, the submission counter,
the prompt log and the session log are all untouched. -/
theorem guessFailure_locks_unscored (s : St) (tok : Nat) (g lbl : String)
    (p : Option String) (b : Option (List HighScoreEntry))
    (h1 : s.locked = false) (h2 : s.currentToken = some tok) :
    (handleGuessStart s g lbl).locked = true ∧
    (handleGuessStart s g lbl).guessCalls = s.guessCalls + 1 ∧
    (handleGuessResponse (handleGuessStart s g lbl) none p b).locked = true ∧
    (handleGuessResponse (handleGuessStart s g lbl) none p b).streak = s.streak ∧
    (handleGuessResponse (handleGuessStart s g lbl) none p b).highScores =
      s.highScores ∧
    (handleGuessResponse (handleGuessStart s g lbl) none p b).highScoresByDifficulty =
      s.highScoresByDifficulty ∧
    (handleGuessResponse (handleGuessStart s g lbl) none p b).submitCalls =
      s.submitCalls ∧
    (handleGuessResponse (handleGuessStart s g lbl) none p b).promptDefaults =
      s.promptDefaults ∧
    (handleGuessResponse (handleGuessStart s g lbl) none p b).attempts =
      s.attempts ∧
    (handleGuessResponse (handleGuessStart s g lbl) none p b).statusNegative =
      true ∧
    (handleGuessResponse (handleGuessStart s g lbl) none p b).status =
      "Villa kom upp við að senda ágiskun." ∧
    (∀ g2 lbl2,
      handleGuessStart (handleGuessResponse (handleGuessStart s g lbl) none p b)
        g2 lbl2 =
      handleGuessResponse (handleGuessStart s g lbl) none p b) ∧
    (∀ p2 b2,
      timerTick (handleGuessResponse (handleGuessStart s g lbl) none p b) p2 b2 =
      handleGuessResponse (handleGuessStart s g lbl) none p b) := by
  have e1 : handleGuessStart s g lbl =
      { s with
          locked := true
          timerArmed := false
          pendingGuess := some (tok, g, lbl)
          guessCalls := s.guessCalls + 1 } := by
    simp [handleGuessStart, h2, h1]
  have e2 : handleGuessResponse (handleGuessStart s g lbl) none p b =
      { s with
          locked := true
          timerArmed := false
          pendingGuess := none
          guessCalls := s.guessCalls + 1
          status := "Villa kom upp við að senda ágiskun."
          statusPositive := false
          statusNegative := true
          nextDisabled := false } := by
    rw [e1]
    simp [handleGuessResponse, renderStatus]
  rw [e2, e1]
  refine ⟨rfl, rfl, rfl, rfl, rfl, rfl, rfl, rfl, rfl, rfl, rfl, ?_, ?_⟩
  · intro g2 lbl2
    simp [handleGuessStart, h2]
  · intro p2 b2
    simp [timerTick]

/-- C7 witness: a guess for token 7 whose POST rejects. -/
theorem guessFailure_locks_unscored_witness :
    (handleGuessResponse
      (handleGuessStart { initialSt with currentToken := some 7 } "a" "x")
      none none none).locked = true ∧
    (handleGuessResponse
      (handleGuessStart { initialSt with currentToken := some 7 } "a" "x")
      none none none).streak = { initialSt with currentToken := some 7 }.streak ∧
    (handleGuessResponse
      (handleGuessStart { initialSt with currentToken := some 7 } "a" "x")
      none none none).submitCalls =
      { initialSt with currentToken := some 7 }.submitCalls :=
  ⟨(guessFailure_locks_unscored { initialSt with currentToken := some 7 } 7 "a" "x"
      none none rfl rfl).2.2.1,
   (guessFailure_locks_unscored { initialSt with currentToken := some 7 } 7 "a" "x"
      none none rfl rfl).2.2.2.1,
   (guessFailure_locks_unscored { initialSt with currentToken := some 7 } 7 "a" "x"
      none none rfl rfl).2.2.2.2.2.2.1⟩

/-! ## C4: streak updates -/

/-- The streak after the guess continuation processes a successful
response: incremented on correct, zeroed on incorrect. -/
theorem handleGuessResponse_streak (s : St) (r : GuessResult)
    (p : Option String) (b : Option (List HighScoreEntry))
    (pg : Nat × String × String) (hpg : s.pendingGuess = some pg) :
    (handleGuessResponse s (some r) p b).streak =
      if r.correct then s.streak + 1 else 0 := by
  obtain ⟨tok, gid, lbl⟩ := pg
  cases hc : r.correct <;>
    simp [handleGuessResponse, hpg, hc, renderStatus, maybeSubmit_streak]

/-- handleGuessStart never changes the streak. -/
theorem handleGuessStart_streak (s : St) (g lbl : String) :
    (handleGuessStart s g lbl).streak = s.streak := by
  unfold handleGuessStart
  split
  · rfl
  split
  · rfl
  · rfl

/-- Every event keeps the streak non-negative. -/
theorem step_streak_nonneg (s : St) (e : Event) (h : 0 ≤ s.streak) :
    0 ≤ (step s e).streak := by
  cases e with
  | guessClick g lbl =>
      simp only [step]
      rw [handleGuessStart_streak]
      exact h
  | guessResponse r p b =>
      simp only [step]
      rcases hpg : s.pendingGuess with _ | ⟨⟨tok, gid, lbl⟩⟩
      · simp only [handleGuessResponse, hpg]
        exact h
      · rcases r with _ | res
        · simp [handleGuessResponse, hpg, renderStatus]
          exact h
        · cases hc : res.correct <;>
            (simp [handleGuessResponse, hpg, renderStatus, maybeSubmit_streak, hc];
             try omega)
  | tick p b =>
      simp only [step]
      cases hb : s.timerArmed
      · simp [timerTick, hb]
        exact h
      · simp only [timerTick, hb, if_true]
        split
        · unfold handleTimeout clearTimer
          split
          · exact h
          · simp [renderStatus, maybeSubmit_streak]
        · exact h
  | nextRoundClick q =>
      simp only [step]
      split
      · exact h
      · rw [(loadQuestion_preserves s q).1]; exact h
  | gameLinkClick g f q =>
      simp only [step]
      unfold setActiveGame
      rw [(loadQuestion_preserves _ q).1, (fetchHighScores_preserves _ f).1]
  | difficultyInput v f q =>
      simp only [step]
      unfold onDifficultyChange
      rw [(loadQuestion_preserves _ q).1, (fetchHighScores_preserves _ f).1]

/-- C4: a resolution updates the streak exactly — a processed guess
response adds exactly 1 on correct and sets exactly 0 on incorrect, a
timeout of an unresolved round sets exactly 0 — and along any event
sequence a streak starting non-negative (in particular at 0) stays
non-negative. -/
theorem streak_update_exact (s : St) (r : GuessResult) (p : Option String)
    (b : Option (List HighScoreEntry)) (pg : Nat × String × String) :
    (s.pendingGuess = some pg →
      (handleGuessResponse s (some r) p b).streak =
        if r.correct then s.streak + 1 else 0) ∧
    (s.locked = false → (handleTimeout s p b).streak = 0) ∧
    (∀ es : List Event, 0 ≤ s.streak → 0 ≤ (run s es).streak) := by
  refine ⟨handleGuessResponse_streak s r p b pg, ?_, ?_⟩
  · intro h
    simp [handleTimeout, h, renderStatus, maybeSubmit_streak]
  · intro es
    induction es generalizing s with
    | nil => intro h; exact h
    | cons e rest ih =>
        intro h
        exact ih (step s e) (step_streak_nonneg s e h)

/-- C4 witness: a correct response on a round with a pending guess and
streak 0 yields streak 1; the run over an empty event list keeps 0. -/
theorem streak_update_exact_witness :
    (handleGuessResponse { initialSt with pendingGuess := some (1, "a", "x") }
        (some (GuessResult.mk true "a")) none none).streak =
      (if (GuessResult.mk true "a").correct then
        { initialSt with pendingGuess := some (1, "a", "x") }.streak + 1
      else 0) :=
  (streak_update_exact { initialSt with pendingGuess := some (1, "a", "x") }
    (GuessResult.mk true "a") none none (1, "a", "x")).1 rfl

/-! ## C9: session log -/

/-- The displayed log is the newest-first prefix of the reversed log. -/
theorem displayedAttempts_eq (s : St) :
    displayedAttempts s = s.attempts.reverse.take 15 := by
  show (s.attempts.rtake 15).reverse = s.attempts.reverse.take 15
  rw [List.rtake_eq_reverse_take_reverse, List.reverse_reverse]

/-- C9: the session log is append-only and bounded for display — each
processed guess response appends exactly one record (carrying the
response's correctness) to `attempts`, the rendered list never exceeds
15 entries, and appending a record puts it at the front of the rendered
list while the oldest rendered entry is evicted once 15 are shown. -/
theorem sessionLog_bounded (s : St) (r : GuessResult) (p : Option String)
    (b : Option (List HighScoreEntry)) (pg : Nat × String × String)
    (rec : AttemptRecord) :
    (s.pendingGuess = some pg →
      ∃ a : AttemptRecord, a.correct = r.correct ∧
        (handleGuessResponse s (some r) p b).attempts = s.attempts ++ [a]) ∧
    (displayedAttempts s).length ≤ 15 ∧
    displayedAttempts { s with attempts := s.attempts ++ [rec] } =
      (rec :: displayedAttempts s).take 15 := by
  refine ⟨?_, ?_, ?_⟩
  · intro hpg
    obtain ⟨tok, gid, lbl⟩ := pg
    cases hc : r.correct <;>
      (simp only [handleGuessResponse, hpg, hc, renderStatus, if_true,
        Bool.false_eq_true, if_false, maybeSubmit_attempts,
        maybeSubmit_questionType, maybeSubmit_options];
       exact ⟨_, rfl, rfl⟩)
  · rw [displayedAttempts_eq]
    exact List.length_take_le 15 s.attempts.reverse
  · simp [displayedAttempts_eq, List.take_take]

/-- C9 witness: processing a correct response appends one record. -/
theorem sessionLog_bounded_witness :
    ∃ a : AttemptRecord, a.correct = (GuessResult.mk true "a").correct ∧
      (handleGuessResponse { initialSt with pendingGuess := some (1, "a", "x") }
          (some (GuessResult.mk true "a")) none none).attempts =
        { initialSt with pendingGuess := some (1, "a", "x") }.attempts ++ [a] :=
  (sessionLog_bounded { initialSt with pendingGuess := some (1, "a", "x") }
    (GuessResult.mk true "a") none none (1, "a", "x")
    (AttemptRecord.mk true "who-is" "x")).1 rfl

/-! ## C1: at-most-once resolution within a round -/

/-- C1: from an unresolved round (unlocked, token held, timer armed, one
tick left), in either interleaving of the guess click and the expiring
tick exactly one event resolves the round — the first sets the lock
(the guess also fires exactly one backend call; the expiry resets the
streak and fires none) — and the event processed second finds the
resolution already taken and leaves the state completely unchanged. -/
theorem atMostOnce_resolution (s : St) (tok : Nat) (g lbl : String)
    (p : Option String) (b : Option (List HighScoreEntry))
    (h1 : s.locked = false) (h2 : s.currentToken = some tok)
    (h3 : s.timerArmed = true) (h4 : s.timeLeft = 1) :
    ((step s (Event.guessClick g lbl)).locked = true ∧
     (step s (Event.guessClick g lbl)).guessCalls = s.guessCalls + 1 ∧
     step (step s (Event.guessClick g lbl)) (Event.tick p b) =
       step s (Event.guessClick g lbl)) ∧
    ((step s (Event.tick p b)).locked = true ∧
     (step s (Event.tick p b)).streak = 0 ∧
     (step s (Event.tick p b)).guessCalls = s.guessCalls ∧
     step (step s (Event.tick p b)) (Event.guessClick g lbl) =
       step s (Event.tick p b)) := by
  have eClick : step s (Event.guessClick g lbl) =
      { s with
          locked := true
          timerArmed := false
          pendingGuess := some (tok, g, lbl)
          guessCalls := s.guessCalls + 1 } := by
    simp [step, handleGuessStart, h2, h1]
  have eTick : timerTick s p b =
      maybeSubmitHighScore
        { s with
            timerArmed := false
            timeLeft := 0
            locked := true
            streak := 0
            status := "Tíminn rann út. Reyndu aftur."
            statusPositive := false
            statusNegative := true
            nextDisabled := false }
        s.streak p b := by
    simp [timerTick, h3, h4, clearTimer, handleTimeout, h1, renderStatus]
  refine ⟨⟨?_, ?_, ?_⟩, ?_, ?_, ?_, ?_⟩
  · rw [eClick]
  · rw [eClick]
  · rw [eClick]
    simp [step, timerTick]
  · simp only [step]
    rw [eTick, maybeSubmit_locked]
  · simp only [step]
    rw [eTick, maybeSubmit_streak]
  · simp only [step]
    rw [eTick, maybeSubmit_guessCalls]
  · have hTok : (timerTick s p b).currentToken = some tok := by
      rw [eTick, maybeSubmit_token]
      exact h2
    have hLock : (timerTick s p b).locked = true := by
      rw [eTick, maybeSubmit_locked]
    simp [step, handleGuessStart, hTok, hLock]

/-- C1 witness: a concrete unresolved round with one tick left. -/
theorem atMostOnce_resolution_witness :
    (step { initialSt with currentToken := some 7, timerArmed := true, timeLeft := 1 }
        (Event.guessClick "a" "x")).locked = true ∧
    (step { initialSt with currentToken := some 7, timerArmed := true, timeLeft := 1 }
        (Event.tick none none)).guessCalls =
      { initialSt with currentToken := some 7, timerArmed := true, timeLeft := 1 }.guessCalls :=
  ⟨(atMostOnce_resolution
      { initialSt with currentToken := some 7, timerArmed := true, timeLeft := 1 }
      7 "a" "x" none none rfl rfl rfl rfl).1.1,
   (atMostOnce_resolution
      { initialSt with currentToken := some 7, timerArmed := true, timeLeft := 1 }
      7 "a" "x" none none rfl rfl rfl rfl).2.2.2.1⟩

/-! ## C2: stale guess response after a config change -/

/-- Round one's question: token 1. -/
def staleQ1 : QuestionData :=
  QuestionData.mk 1 "who-is" [OptionItem.mk "a" "Alice", OptionItem.mk "b" "Bob"]

/-- Round two's question, issued by the difficulty change: token 2. -/
def staleQ2 : QuestionData :=
  QuestionData.mk 2 "who-is" [OptionItem.mk "c" "Carol", OptionItem.mk "d" "Dave"]

/-- Round one loaded. -/
def staleS1 : St := loadQuestion initialSt (some staleQ1)

/-- A guess for token 1 is sent; its response is in flight. -/
def staleS2 : St := handleGuessStart staleS1 "a" "Alice"

/-- The difficulty is changed while the guess is in flight: streak is
zeroed, leaderboards refetched, and a fresh round with token 2 starts. -/
def staleS3 : St := onDifficultyChange staleS2 5 (fun _ => some []) (some staleQ2)

/-- The stale response for token 1 now arrives, correct. -/
def staleS4 : St := handleGuessResponse staleS3 (some (GuessResult.mk true "a")) none none

/-- C2 (refuting trace): the guess sent under token 1 is still in flight
when the difficulty change starts the token-2 round with streak 0 and an
empty log; when the stale response arrives, the continuation re-checks
nothing, so it increments the new round's streak to 1, appends an
attempt record, and enables the next-round button while the new round is
still awaiting a guess — the stale event is not discarded. -/
theorem staleGuessResponse_hits_new_round :
    staleS1.currentToken = some 1 ∧
    staleS2.pendingGuess = some (1, "a", "Alice") ∧
    staleS3.currentToken = some 2 ∧
    staleS3.locked = false ∧
    staleS3.streak = 0 ∧
    staleS3.attempts = [] ∧
    staleS3.nextDisabled = true ∧
    staleS4.streak = 1 ∧
    staleS4.attempts = [AttemptRecord.mk true "who-is" "Alice"] ∧
    staleS4.nextDisabled = false := by
  decide

/-! ## C10: refreshing the leaderboards clears before fetching -/

/-- C10: fetchHighScores rebuilds the per-difficulty cache from the
responses alone — two states with the same selected difficulty end with
identical caches regardless of what was cached before — and when every
request fails the caches are left empty (not the previously fetched
lists) with a negative status rendered. -/
theorem fetchHighScores_clears_first (s s2 : St)
    (resp : Nat → Option (List HighScoreEntry)) :
    ((∀ d, resp d = none) →
      (fetchHighScores s resp).highScoresByDifficulty = [] ∧
      (fetchHighScores s resp).highScores = [] ∧
      (fetchHighScores s resp).statusNegative = true) ∧
    (s.currentDifficulty = s2.currentDifficulty →
      (fetchHighScores s resp).highScoresByDifficulty =
        (fetchHighScores s2 resp).highScoresByDifficulty ∧
      (fetchHighScores s resp).highScores =
        (fetchHighScores s2 resp).highScores) := by
  constructor
  · intro h
    simp [fetchHighScores, h, DIFFICULTIES, renderStatus]
  · intro h
    unfold fetchHighScores renderStatus
    split <;> simp [h]

/-- C10 witness: all five requests fail against a warm cache: the caches
end empty. -/
theorem fetchHighScores_clears_first_witness :
    (fetchHighScores
      { initialSt with
          highScores := [HighScoreEntry.mk "AAA" 9]
          highScoresByDifficulty := [(4, [HighScoreEntry.mk "AAA" 9])] }
      (fun _ => none)).highScoresByDifficulty = [] ∧
    (fetchHighScores
      { initialSt with
          highScores := [HighScoreEntry.mk "AAA" 9]
          highScoresByDifficulty := [(4, [HighScoreEntry.mk "AAA" 9])] }
      (fun _ => none)).highScores = [] ∧
    (fetchHighScores
      { initialSt with
          highScores := [HighScoreEntry.mk "AAA" 9]
          highScoresByDifficulty := [(4, [HighScoreEntry.mk "AAA" 9])] }
      (fun _ => none)).statusNegative = true :=
  (fetchHighScores_clears_first
    { initialSt with
        highScores := [HighScoreEntry.mk "AAA" 9]
        highScoresByDifficulty := [(4, [HighScoreEntry.mk "AAA" 9])] }
    initialSt (fun _ => none)).1 (fun _ => rfl)
